import Mathlib

set_option maxHeartbeats 1000000

/-!
Verification development for the gesture-controlled particle-tree
application.  The embedding below translates the decision logic of
`src/handRecognition.ts` (gesture classifier), the per-frame particle
integrator and batch particle generator of `MagicParticles`, and the
grab/zoom controller of `FloatingPhotos`.

Representation note: the source compares Euclidean distances
(`Math.sqrt(dx*dx + dy*dy)`) against thresholds.  Every comparison in the
source has the shape `sqrt a < c * sqrt b` or `sqrt a < c` with
`a, b, c ≥ 0`, and the clamp `palmSize < 0.01 ? 0.01 : palmSize` is a
`max` of nonnegative reals.  Squaring is strictly monotone on
nonnegative reals, so each comparison is equivalent to the comparison of
the squared quantities, and the clamp commutes with squaring.  The
classifier is therefore embedded over `ℚ` with *squared* distances and
squared thresholds, which keeps every predicate decidable; the sentinel
pinch metrics `0` and `1` of the source are fixed points of squaring and
remain distinguishable.
-/

/-- One hand landmark: x, y are normalized camera-frame coordinates, z is
relative depth (unused by the classifier's planar distance helper). -/
structure Landmark where
  x : ℚ
  y : ℚ
  z : ℚ
deriving DecidableEq

/-- The squared planar (x, y) distance of the source's `dist` helper. -/
def distSq (p1 p2 : Landmark) : ℚ :=
  (p1.x - p2.x) ^ 2 + (p1.y - p2.y) ^ 2

/-- A detected hand is an ordered set of 21 landmarks, indexed by the fixed
anatomical joint numbering (0 wrist, 4 thumb tip, 5 index MCP, 8 index tip,
9 middle MCP, 12 middle tip, 16 ring tip, 20 pinky tip). -/
def Hand : Type := Fin 21 → Landmark

/-- Result of one detection call: a list of hands (possibly empty). -/
structure HandLandmarkerResult where
  landmarks : List Hand

/-- The gesture tags of `src/types.ts`. -/
inductive GestureType where
  | NONE
  | OPEN_PALM
  | CLOSED_FIST
  | PINCH
deriving DecidableEq

/-- Classifier output: gesture tag, optional 2D anchor, and the pinch
metric (represented squared; the source's constant metrics 0 and 1 are
unchanged by squaring). -/
structure GestureResult where
  type : GestureType
  handCenter : Option (ℚ × ℚ)
  pinchDistanceSq : ℚ
deriving DecidableEq

/-- Squared palm size: squared distance from wrist (0) to middle MCP (9). -/
def palmSizeSq (hand : Hand) : ℚ := distSq (hand 0) (hand 9)

/-- Squared clamped scale: the source clamps `palmSize` below by `0.01`;
squared, the clamp floor is `0.01 ^ 2 = 1 / 10000`. -/
def safeScaleSq (hand : Hand) : ℚ :=
  if palmSizeSq hand < 1 / 10000 then 1 / 10000 else palmSizeSq hand

/-- Squared pinch distance: thumb tip (4) to index tip (8). -/
def pinchDistSq (hand : Hand) : ℚ := distSq (hand 4) (hand 8)

/-- Pinch candidate test: `pinchDist < 0.65 * safeScale`, squared on both
sides (`0.65 ^ 2 = 169 / 400`). -/
def isPinchCandidate (hand : Hand) : Bool :=
  pinchDistSq hand < safeScaleSq hand * (169 / 400)

/-- Curled-finger test: tip-to-wrist distance `< 1.35 * safeScale`,
squared on both sides (`1.35 ^ 2 = 729 / 400`). -/
def isCurled (hand : Hand) (tip : Landmark) : Bool :=
  distSq tip (hand 0) < safeScaleSq hand * (729 / 400)

/-- Number of curled fingers among index, middle, ring and pinky tips. -/
def curledCount (hand : Hand) : Nat :=
  (([hand 8, hand 12, hand 16, hand 20]).filter (isCurled hand)).length

/-- The classifier of `src/handRecognition.ts`.  Empty detection returns
NONE with a null anchor and pinch metric 0 (the literal in the source);
otherwise the priority chain is fist, then pinch, then open palm, then
the NONE fallback. -/
def classifyGesture (result : HandLandmarkerResult) : GestureResult :=
  match result.landmarks with
  | [] => { type := GestureType.NONE, handCenter := none, pinchDistanceSq := 0 }
  | hand :: _ =>
    if curledCount hand = 4 then
      { type := GestureType.CLOSED_FIST
        handCenter := some ((hand 0).x, (hand 0).y)
        pinchDistanceSq := 1 }
    else if isPinchCandidate hand then
      { type := GestureType.PINCH
        handCenter := some ((hand 8).x, (hand 8).y)
        pinchDistanceSq := pinchDistSq hand }
    else if curledCount hand ≤ 1 then
      { type := GestureType.OPEN_PALM
        handCenter := some ((hand 9).x, (hand 9).y)
        pinchDistanceSq := 1 }
    else
      { type := GestureType.NONE, handCenter := none, pinchDistanceSq := 1 }

/-- Scaling every landmark about the wrist (landmark 0) by factor k. -/
def scaleAboutWrist (k : ℚ) (hand : Hand) : Hand := fun i =>
  { x := (hand 0).x + k * ((hand i).x - (hand 0).x)
    y := (hand 0).y + k * ((hand i).y - (hand 0).y)
    z := (hand 0).z + k * ((hand i).z - (hand 0).z) }

/-- Concrete hand used for the C1 witness: wrist at the origin, middle MCP
at (1/10, 0) (squared palm size 1/100), every other joint at (1/100, 0),
so all four fingertips are curled and thumb and index tips coincide. -/
def fistHand : Hand := fun i =>
  if i.val = 0 then { x := 0, y := 0, z := 0 }
  else if i.val = 9 then { x := 1 / 10, y := 0, z := 0 }
  else { x := 1 / 100, y := 0, z := 0 }

/-- Concrete hand used for C3: wrist at the origin, middle MCP at
(1/10, 0), the four fingertips at (1/5, 0) (extended), the thumb tip at
(-1/5, 0) (far from the index tip).  Unscaled it is an open palm; scaled
about the wrist by 1/100 the clamp floor takes over and every fingertip
counts as curled. -/
def palmHand : Hand := fun i =>
  if i.val = 0 then { x := 0, y := 0, z := 0 }
  else if i.val = 9 then { x := 1 / 10, y := 0, z := 0 }
  else if i.val = 4 then { x := -(1 / 5), y := 0, z := 0 }
  else { x := 1 / 5, y := 0, z := 0 }

lemma distSq_scaleAboutWrist (k : ℚ) (hand : Hand) (i j : Fin 21) :
    distSq (scaleAboutWrist k hand i) (scaleAboutWrist k hand j) =
      k ^ 2 * distSq (hand i) (hand j) := by
  simp only [distSq, scaleAboutWrist]
  ring

lemma palmSizeSq_scaleAboutWrist (k : ℚ) (hand : Hand) :
    palmSizeSq (scaleAboutWrist k hand) = k ^ 2 * palmSizeSq hand :=
  distSq_scaleAboutWrist k hand 0 9

lemma safeScaleSq_scaleAboutWrist (k : ℚ) (hand : Hand)
    (h1 : ¬ palmSizeSq hand < 1 / 10000)
    (h2 : ¬ palmSizeSq (scaleAboutWrist k hand) < 1 / 10000) :
    safeScaleSq (scaleAboutWrist k hand) = k ^ 2 * safeScaleSq hand := by
  simp only [safeScaleSq, if_neg h1, if_neg h2]
  exact palmSizeSq_scaleAboutWrist k hand

lemma isPinchCandidate_scaleAboutWrist (k : ℚ) (hand : Hand) (hk : 0 < k)
    (h1 : ¬ palmSizeSq hand < 1 / 10000)
    (h2 : ¬ palmSizeSq (scaleAboutWrist k hand) < 1 / 10000) :
    isPinchCandidate (scaleAboutWrist k hand) = isPinchCandidate hand := by
  have hk2 : 0 < k ^ 2 := by positivity
  simp only [isPinchCandidate, pinchDistSq, distSq_scaleAboutWrist,
    safeScaleSq_scaleAboutWrist k hand h1 h2]
  rw [decide_eq_decide]
  rw [mul_assoc]
  exact mul_lt_mul_left hk2

lemma isCurled_scaleAboutWrist (k : ℚ) (hand : Hand) (hk : 0 < k)
    (h1 : ¬ palmSizeSq hand < 1 / 10000)
    (h2 : ¬ palmSizeSq (scaleAboutWrist k hand) < 1 / 10000) (i : Fin 21) :
    isCurled (scaleAboutWrist k hand) (scaleAboutWrist k hand i) =
      isCurled hand (hand i) := by
  have hk2 : 0 < k ^ 2 := by positivity
  have h0 : scaleAboutWrist k hand 0 = hand 0 := by
    simp [scaleAboutWrist]
  simp only [isCurled, h0]
  have hd : distSq (scaleAboutWrist k hand i) (hand 0) =
      k ^ 2 * distSq (hand i) (hand 0) := by
    have := distSq_scaleAboutWrist k hand i 0
    rwa [h0] at this
  rw [hd, safeScaleSq_scaleAboutWrist k hand h1 h2, decide_eq_decide,
    mul_assoc]
  exact mul_lt_mul_left hk2

lemma curledCount_scaleAboutWrist (k : ℚ) (hand : Hand) (hk : 0 < k)
    (h1 : ¬ palmSizeSq hand < 1 / 10000)
    (h2 : ¬ palmSizeSq (scaleAboutWrist k hand) < 1 / 10000) :
    curledCount (scaleAboutWrist k hand) = curledCount hand := by
  simp only [curledCount, List.filter_cons, List.filter_nil,
    isCurled_scaleAboutWrist k hand hk h1 h2]
  cases isCurled hand (hand 8) <;> cases isCurled hand (hand 12) <;>
    cases isCurled hand (hand 16) <;> cases isCurled hand (hand 20) <;> simp

/-- Claim C1: for every 21-joint landmark set in which all four of the index,
middle, ring and pinky tips are curled (planar distance to the wrist below
1.35 times the clamped palm size) and the thumb-to-index planar distance is
below 0.65 times the clamped palm size, `classifyGesture` returns
CLOSED_FIST with anchor equal to the wrist position, never PINCH. -/
theorem fist_priority_over_pinch (hand : Hand) (rest : List Hand)
    (h8 : isCurled hand (hand 8) = true)
    (h12 : isCurled hand (hand 12) = true)
    (h16 : isCurled hand (hand 16) = true)
    (h20 : isCurled hand (hand 20) = true)
    (hp : isPinchCandidate hand = true) :
    (classifyGesture ⟨hand :: rest⟩).type = GestureType.CLOSED_FIST ∧
    (classifyGesture ⟨hand :: rest⟩).handCenter =
      some ((hand 0).x, (hand 0).y) ∧
    (classifyGesture ⟨hand :: rest⟩).type ≠ GestureType.PINCH := by
  have hc : curledCount hand = 4 := by
    simp [curledCount, List.filter_cons, h8, h12, h16, h20]
  simp [classifyGesture, hc]

/-- Witness for C1: a concrete all-curled, thumb-on-index hand. -/
theorem fist_priority_over_pinch_witness :
    (classifyGesture ⟨[fistHand]⟩).type = GestureType.CLOSED_FIST ∧
    (classifyGesture ⟨[fistHand]⟩).handCenter =
      some ((fistHand 0).x, (fistHand 0).y) ∧
    (classifyGesture ⟨[fistHand]⟩).type ≠ GestureType.PINCH :=
  fist_priority_over_pinch fistHand []
    (by norm_num +decide [isCurled, fistHand, distSq, safeScaleSq, palmSizeSq])
    (by norm_num +decide [isCurled, fistHand, distSq, safeScaleSq, palmSizeSq])
    (by norm_num +decide [isCurled, fistHand, distSq, safeScaleSq, palmSizeSq])
    (by norm_num +decide [isCurled, fistHand, distSq, safeScaleSq, palmSizeSq])
    (by norm_num +decide [isPinchCandidate, fistHand, pinchDistSq, distSq,
      safeScaleSq, palmSizeSq])

/-- Claim C2 counterexample: on an empty detection the source returns pinch
metric 0 (the literal at line 31 of `handRecognition.ts`), not 1 as the
claim states; gesture NONE and null anchor do hold there. -/
theorem no_hands_metric_counterexample :
    (classifyGesture ⟨[]⟩).type = GestureType.NONE ∧
    (classifyGesture ⟨[]⟩).handCenter = none ∧
    (classifyGesture ⟨[]⟩).pinchDistanceSq ≠ 1 := by
  refine ⟨rfl, rfl, by decide⟩

/-- Claim C2 amended: for every detection result with an empty landmark list,
`classifyGesture` returns gesture NONE, a null anchor and pinch metric 0;
the classifier is a total function, so no error is possible. -/
theorem no_hands_gives_none (result : HandLandmarkerResult)
    (h : result.landmarks = []) :
    classifyGesture result =
      { type := GestureType.NONE, handCenter := none,
        pinchDistanceSq := 0 } := by
  obtain ⟨lms⟩ := result
  simp only at h
  subst h
  rfl

/-- Witness for the amended C2 at the literal empty detection result. -/
theorem no_hands_gives_none_witness :
    classifyGesture ⟨[]⟩ =
      { type := GestureType.NONE, handCenter := none,
        pinchDistanceSq := 0 } :=
  no_hands_gives_none ⟨[]⟩ rfl

/-- Claim C3 counterexample: `palmHand` classifies as OPEN_PALM, but scaling it
about the wrist by the positive factor 1/100 drives the palm size below
the 0.01 clamp floor, after which every fingertip counts as curled and the
classifier returns CLOSED_FIST instead: the gesture type changes. -/
theorem scale_invariance_counterexample :
    (0 : ℚ) < 1 / 100 ∧
    (classifyGesture ⟨[palmHand]⟩).type = GestureType.OPEN_PALM ∧
    (classifyGesture ⟨[scaleAboutWrist (1 / 100) palmHand]⟩).type =
      GestureType.CLOSED_FIST := by
  refine ⟨by norm_num, ?_, ?_⟩
  · norm_num +decide [classifyGesture, curledCount, isCurled, isPinchCandidate,
      pinchDistSq, safeScaleSq, palmSizeSq, distSq, palmHand,
      List.filter_cons, List.filter_nil]
  · norm_num +decide [classifyGesture, curledCount, isCurled, isPinchCandidate,
      pinchDistSq, safeScaleSq, palmSizeSq, distSq, palmHand, scaleAboutWrist,
      List.filter_cons, List.filter_nil]

/-- Claim C3 amended: uniformly scaling all landmarks about the wrist by a
positive factor k leaves the classified gesture type unchanged, provided
the clamp on the palm size is inactive both before and after the scaling
(palm size at least 0.01, i.e. squared palm size at least 1/10000, in both
landmark sets).  Crossing the clamp floor can change the type, as the
counterexample shows. -/
theorem scale_invariance_amended (hand : Hand) (rest : List Hand) (k : ℚ)
    (hk : 0 < k)
    (h1 : ¬ palmSizeSq hand < 1 / 10000)
    (h2 : ¬ palmSizeSq (scaleAboutWrist k hand) < 1 / 10000) :
    (classifyGesture ⟨scaleAboutWrist k hand :: rest⟩).type =
      (classifyGesture ⟨hand :: rest⟩).type := by
  have hcc := curledCount_scaleAboutWrist k hand hk h1 h2
  have hpc := isPinchCandidate_scaleAboutWrist k hand hk h1 h2
  simp only [classifyGesture, hcc, hpc]
  by_cases hc4 : curledCount hand = 4
  · simp [hc4]
  · by_cases hpin : isPinchCandidate hand = true
    · simp [hc4, hpin]
    · by_cases hc1 : curledCount hand ≤ 1
      · simp [hc4, hpin, hc1]
      · simp [hc4, hpin, hc1]

/-- Witness for the amended C3: scaling the concrete open palm by 2 keeps
the clamp inactive and the gesture type unchanged. -/
theorem scale_invariance_amended_witness :
    (classifyGesture ⟨[scaleAboutWrist 2 palmHand]⟩).type =
      (classifyGesture ⟨[palmHand]⟩).type :=
  scale_invariance_amended palmHand [] 2 (by norm_num)
    (by norm_num +decide [palmSizeSq, distSq, palmHand])
    (by norm_num +decide [palmSizeSq, distSq, palmHand, scaleAboutWrist])

/-!
Real-coordinate layer: the particle integrator of `MagicParticles` and the
grab/zoom controller of `FloatingPhotos` work on THREE.Vector3 values; we
embed them over `ℝ`.  `Vector3.distanceTo` is a Euclidean distance; every
use in the frame code is a comparison against a nonnegative constant
(swirl radius 4, grab radius 1.5), so those guards are stated on squared
distances (squaring is strictly monotone on nonnegative reals), while
distance itself is `Real.sqrt` of the squared distance.
-/

/-- A 3D vector, as THREE.Vector3. -/
@[ext]
structure Vec3 where
  x : ℝ
  y : ℝ
  z : ℝ

def Vec3.add (a b : Vec3) : Vec3 := ⟨a.x + b.x, a.y + b.y, a.z + b.z⟩

def Vec3.sub (a b : Vec3) : Vec3 := ⟨a.x - b.x, a.y - b.y, a.z - b.z⟩

def Vec3.smul (c : ℝ) (a : Vec3) : Vec3 := ⟨c * a.x, c * a.y, c * a.z⟩

/-- THREE.Vector3.lerp: `this.x += (v.x - this.x) * alpha`, componentwise. -/
def Vec3.lerp (v target : Vec3) (alpha : ℝ) : Vec3 :=
  ⟨v.x + (target.x - v.x) * alpha,
   v.y + (target.y - v.y) * alpha,
   v.z + (target.z - v.z) * alpha⟩

/-- Squared Euclidean distance between two vectors. -/
def Vec3.distSq (a b : Vec3) : ℝ :=
  (a.x - b.x) ^ 2 + (a.y - b.y) ^ 2 + (a.z - b.z) ^ 2

/-- Euclidean distance, as THREE.Vector3.distanceTo. -/
noncomputable def Vec3.dist (a b : Vec3) : ℝ := Real.sqrt (Vec3.distSq a b)

lemma Vec3.distSq_nonneg (a b : Vec3) : 0 ≤ Vec3.distSq a b := by
  simp only [Vec3.distSq]
  positivity

lemma Vec3.distSq_eq_zero_iff (a b : Vec3) : Vec3.distSq a b = 0 ↔ a = b := by
  constructor
  · intro h
    simp only [Vec3.distSq] at h
    have hx : (a.x - b.x) ^ 2 = 0 := by
      nlinarith [sq_nonneg (a.x - b.x), sq_nonneg (a.y - b.y), sq_nonneg (a.z - b.z)]
    have hy : (a.y - b.y) ^ 2 = 0 := by
      nlinarith [sq_nonneg (a.x - b.x), sq_nonneg (a.y - b.y), sq_nonneg (a.z - b.z)]
    have hz : (a.z - b.z) ^ 2 = 0 := by
      nlinarith [sq_nonneg (a.x - b.x), sq_nonneg (a.y - b.y), sq_nonneg (a.z - b.z)]
    ext
    · nlinarith [hx]
    · nlinarith [hy]
    · nlinarith [hz]
  · intro h
    subst h
    simp [Vec3.distSq]

lemma Vec3.dist_pos_of_ne {a b : Vec3} (h : a ≠ b) : 0 < Vec3.dist a b := by
  apply Real.sqrt_pos.mpr
  rcases lt_or_eq_of_le (Vec3.distSq_nonneg a b) with h' | h'
  · exact h'
  · exact absurd ((Vec3.distSq_eq_zero_iff a b).mp h'.symm) h

/-- One application of the integrator's smoothing step contracts the
squared distance to the target by (1 - 0.08)^2. -/
lemma lerp_distSq (p t : Vec3) :
    Vec3.distSq (Vec3.lerp p t (8 / 100)) t =
      (1 - 8 / 100) ^ 2 * Vec3.distSq p t := by
  simp only [Vec3.distSq, Vec3.lerp]
  ring

/-- One application of the integrator's smoothing step contracts the
distance to the target by exactly the factor 1 - 0.08. -/
lemma lerp_dist (p t : Vec3) :
    Vec3.dist (Vec3.lerp p t (8 / 100)) t = (1 - 8 / 100) * Vec3.dist p t := by
  rw [Vec3.dist, Vec3.dist, lerp_distSq, Real.sqrt_mul (by positivity)]
  congr 1
  rw [Real.sqrt_sq (by norm_num)]

lemma lerp_iterate_dist (p t : Vec3) (n : ℕ) :
    Vec3.dist ((fun q => Vec3.lerp q t (8 / 100))^[n] p) t =
      (1 - 8 / 100) ^ n * Vec3.dist p t := by
  induction n with
  | zero => simp
  | succ m ih =>
    rw [Function.iterate_succ_apply', lerp_dist, ih]
    ring

/-- Claim C6: for every particle position p and fixed target t with p ≠ t, one
application of the integrator's smoothing step (`lerp` toward t with blend
0.08) scales the distance to t by exactly 1 - 0.08, hence strictly
decreases it; the new offset from t is the old offset scaled by 1 - 0.08
(same direction, so the step never overshoots past t); and repeated
application decreases the distance strictly monotonically with limit 0. -/
theorem smoothing_step_contracts (p t : Vec3) (h : p ≠ t) :
    Vec3.dist (Vec3.lerp p t (8 / 100)) t = (1 - 8 / 100) * Vec3.dist p t ∧
    Vec3.dist (Vec3.lerp p t (8 / 100)) t < Vec3.dist p t ∧
    Vec3.sub (Vec3.lerp p t (8 / 100)) t =
      Vec3.smul (1 - 8 / 100) (Vec3.sub p t) ∧
    (∀ n : ℕ,
      Vec3.dist ((fun q => Vec3.lerp q t (8 / 100))^[n + 1] p) t <
        Vec3.dist ((fun q => Vec3.lerp q t (8 / 100))^[n] p) t) ∧
    Filter.Tendsto
      (fun n => Vec3.dist ((fun q => Vec3.lerp q t (8 / 100))^[n] p) t)
      Filter.atTop (nhds 0) := by
  have hd : 0 < Vec3.dist p t := Vec3.dist_pos_of_ne h
  refine ⟨lerp_dist p t, ?_, ?_, ?_, ?_⟩
  · rw [lerp_dist]
    nlinarith
  · ext <;> simp [Vec3.sub, Vec3.lerp, Vec3.smul] <;> ring
  · intro n
    rw [lerp_iterate_dist, lerp_iterate_dist]
    have hpow : (1 - 8 / 100 : ℝ) ^ (n + 1) < (1 - 8 / 100) ^ n :=
      pow_lt_pow_right_of_lt_one (by norm_num) (by norm_num) (Nat.lt_succ_self n)
    exact mul_lt_mul_of_pos_right hpow hd
  · simp only [lerp_iterate_dist]
    have hbase := tendsto_pow_atTop_nhds_zero_of_lt_one
      (by norm_num : (0 : ℝ) ≤ 1 - 8 / 100) (by norm_num : (1 - 8 / 100 : ℝ) < 1)
    simpa using hbase.mul_const (Vec3.dist p t)

/-- Witness for C6 at p = (1,0,0), t = (0,0,0). -/
theorem smoothing_step_contracts_witness :
    Vec3.dist (Vec3.lerp ⟨1, 0, 0⟩ ⟨0, 0, 0⟩ (8 / 100)) ⟨0, 0, 0⟩ =
      (1 - 8 / 100) * Vec3.dist ⟨1, 0, 0⟩ ⟨0, 0, 0⟩ ∧
    Vec3.dist (Vec3.lerp ⟨1, 0, 0⟩ ⟨0, 0, 0⟩ (8 / 100)) ⟨0, 0, 0⟩ <
      Vec3.dist ⟨1, 0, 0⟩ ⟨0, 0, 0⟩ ∧
    Vec3.sub (Vec3.lerp ⟨1, 0, 0⟩ ⟨0, 0, 0⟩ (8 / 100)) ⟨0, 0, 0⟩ =
      Vec3.smul (1 - 8 / 100) (Vec3.sub ⟨1, 0, 0⟩ ⟨0, 0, 0⟩) ∧
    (∀ n : ℕ,
      Vec3.dist ((fun q => Vec3.lerp q ⟨0, 0, 0⟩ (8 / 100))^[n + 1] ⟨1, 0, 0⟩) ⟨0, 0, 0⟩ <
        Vec3.dist ((fun q => Vec3.lerp q ⟨0, 0, 0⟩ (8 / 100))^[n] ⟨1, 0, 0⟩) ⟨0, 0, 0⟩) ∧
    Filter.Tendsto
      (fun n => Vec3.dist ((fun q => Vec3.lerp q ⟨0, 0, 0⟩ (8 / 100))^[n] ⟨1, 0, 0⟩) ⟨0, 0, 0⟩)
      Filter.atTop (nhds 0) :=
  smoothing_step_contracts ⟨1, 0, 0⟩ ⟨0, 0, 0⟩
    (by intro hcontra; have := congrArg Vec3.x hcontra; norm_num at this)

open Classical

/-- The application states of `src/types.ts`. -/
inductive AppState where
  | TREE
  | SCATTER
  | HEART
  | PHOTO_VIEW
deriving DecidableEq

/-- The named colors assigned at particle creation (mixed palette, trunk
bark, ribbon highlight); their RGB values are irrelevant to the decision
logic, so they are kept symbolic. -/
inductive ParticleColor where
  | paleVioletRed
  | hotPink
  | lightPink
  | white
  | gold
  | deepPink
  | trunkBrown
  | ghostWhite
deriving DecidableEq

/-- The `ParticleData` record of `src/types.ts`.  `initialPos` starts as a
clone of `scatterPos` and is then mutated every frame by the integrator:
it holds the particle's *current* interpolated position. -/
structure ParticleData where
  id : ℕ
  initialPos : Vec3
  treePos : Vec3
  heartPos : Vec3
  scatterPos : Vec3
  ribbonPos : Option Vec3
  isRibbon : Bool
  isTrunk : Bool
  color : ParticleColor
  size : ℝ
  speed : ℝ
  phase : ℝ

/-- The ribbon-flow position of the TREE state: the spiral of generation
re-evaluated with the time-varying angular offset `time * -0.5`
(`MagicParticles`, frame loop). -/
noncomputable def ribbonFlow (time : ℝ) (rp : Vec3) : Vec3 :=
  let originalH := rp.y
  let angleOffset := time * -(1 / 2)
  let normH := (originalH + 5) / 10
  let spiralRadius := (1 - normH) * (21 / 5)
  let angle := normH * Real.pi * 2 * 5 + angleOffset
  ⟨spiralRadius * Real.cos angle, originalH, spiralRadius * Real.sin angle⟩

/-- Base target selection of the frame loop: SCATTER → scatter position,
HEART → heart position, TREE with a ribbon particle carrying a ribbon
position → ribbon flow, otherwise (including PHOTO_VIEW) the tree
position default. -/
noncomputable def baseTarget (appState : AppState) (time : ℝ)
    (p : ParticleData) : Vec3 :=
  if appState = AppState.SCATTER then p.scatterPos
  else if appState = AppState.HEART then p.heartPos
  else if appState = AppState.TREE ∧ p.isRibbon = true ∧ p.ribbonPos.isSome then
    ribbonFlow time (p.ribbonPos.getD ⟨0, 0, 0⟩)
  else p.treePos

/-- The circular swirl offset added near the hand in SCATTER state. -/
noncomputable def swirlOffset (time : ℝ) (id : ℕ) : Vec3 :=
  ⟨Real.cos (time + id) * (1 / 2), Real.sin (time + id) * (1 / 2), 0⟩

/-- Per-frame target: the base target, plus the swirl offset when a hand
anchor exists, the state is SCATTER and the particle's *current stored
position* (`p.initialPos`) is within 4 units of the hand position
(`dist < 4` stated as `distSq < 4 ^ 2`). -/
noncomputable def frameTarget (appState : AppState)
    (handPosition : Option Vec3) (time : ℝ) (p : ParticleData) : Vec3 :=
  let target := baseTarget appState time p
  match handPosition with
  | some hpos =>
    if appState = AppState.SCATTER ∧ Vec3.distSq p.initialPos hpos < 4 ^ 2 then
      Vec3.add target (swirlOffset time p.id)
    else target
  | none => target

/-- Per-particle vertical breathing sway: `sin(time * 2 + phase) * 0.05`. -/
noncomputable def sway (time : ℝ) (p : ParticleData) : ℝ :=
  Real.sin (time * 2 + p.phase) * (5 / 100)

/-- One integrator step on the stored particle state: the frame loop
mutates only `initialPos`, by `initialPos.lerp(target, 0.08)`. -/
noncomputable def updateParticle (appState : AppState)
    (handPosition : Option Vec3) (time : ℝ) (p : ParticleData) :
    ParticleData :=
  let target := frameTarget appState handPosition time p
  { p with initialPos := Vec3.lerp p.initialPos target (8 / 100) }

/-- The position emitted to the renderer this frame: the freshly stored
position with the sway added to the y component only of the render dummy
(`DUMMY.position.y += sway`), not to the stored state. -/
noncomputable def emittedPosition (appState : AppState)
    (handPosition : Option Vec3) (time : ℝ) (p : ParticleData) : Vec3 :=
  let newPos := (updateParticle appState handPosition time p).initialPos
  ⟨newPos.x, newPos.y + sway time p, newPos.z⟩

/-- Concrete particle for the C4 counterexample: its stored current
position (`initialPos`) is at the origin while its original scatter
position is 10 units away along x. -/
def cp4 : ParticleData :=
  { id := 0, initialPos := ⟨0, 0, 0⟩, treePos := ⟨0, 0, 0⟩,
    heartPos := ⟨0, 0, 0⟩, scatterPos := ⟨10, 0, 0⟩, ribbonPos := none,
    isRibbon := false, isTrunk := false, color := ParticleColor.white,
    size := 1, speed := 0, phase := 0 }

/-- Claim C4 counterexample: with the hand at the origin in SCATTER state, the
particle `cp4` receives the swirl offset (its target is its scatter
position plus (cos 0 * 0.5, sin 0 * 0.5, 0) = (1/2, 0, 0)) even though its
*original scatter position* is 10 units from the hand — the source gates
the swirl on the current stored position `p.initialPos`, not on the
original scatter position as the claim states. -/
theorem swirl_uses_current_position_counterexample :
    frameTarget AppState.SCATTER (some ⟨0, 0, 0⟩) 0 cp4 = ⟨10 + 1 / 2, 0, 0⟩ ∧
    ¬ Vec3.distSq cp4.scatterPos ⟨0, 0, 0⟩ < 4 ^ 2 := by
  constructor
  · simp only [frameTarget, baseTarget, true_and, if_true]
    rw [if_pos (by norm_num [cp4, Vec3.distSq])]
    simp only [swirlOffset, Vec3.add, cp4, Nat.cast_zero, add_zero,
      Real.cos_zero, Real.sin_zero]
    ext <;> norm_num
  · norm_num [cp4, Vec3.distSq]

/-- Claim C4 amended: in SCATTER state with a hand anchor present, the per-frame
target includes the circular swirl offset if and only if the particle's
*current stored position* (the `initialPos` field, initialized to the
scatter position but re-interpolated every frame) is within 4 units of
the hand position; otherwise the target is the plain scatter position. -/
theorem swirl_iff_current_within_radius (p : ParticleData) (hp : Vec3)
    (time : ℝ) :
    frameTarget AppState.SCATTER (some hp) time p =
      (if Vec3.distSq p.initialPos hp < 4 ^ 2 then
        Vec3.add p.scatterPos (swirlOffset time p.id)
      else p.scatterPos) := by
  simp only [frameTarget, baseTarget, true_and, if_true]

/-- Concrete particle for the C5 counterexample: phase π/2 makes the sway
at time 0 equal to 0.05, and the TREE target is (1, 1, 1). -/
noncomputable def cp5 : ParticleData :=
  { id := 0, initialPos := ⟨0, 0, 0⟩, treePos := ⟨1, 1, 1⟩,
    heartPos := ⟨0, 0, 0⟩, scatterPos := ⟨0, 0, 0⟩, ribbonPos := none,
    isRibbon := false, isTrunk := false, color := ParticleColor.white,
    size := 1, speed := 0, phase := Real.pi / 2 }

lemma frameTarget_cp5 : frameTarget AppState.TREE none 0 cp5 = ⟨1, 1, 1⟩ := by
  simp [frameTarget, baseTarget, cp5]

/-- Claim C5 counterexample: at time 0 the particle `cp5` (sway 0.05) has its
stored y updated to 0.08 * 1 = 0.08, whereas the claimed update rule
oldPos + 0.08 * ((target + sway) - oldPos) would give y = 0.08 * 1.05:
the stored state is smoothed toward the target alone, not target + sway. -/
theorem sway_not_in_stored_state_counterexample :
    (updateParticle AppState.TREE none 0 cp5).initialPos.y = 8 / 100 ∧
    (Vec3.add cp5.initialPos (Vec3.smul (8 / 100)
      (Vec3.sub (Vec3.add (frameTarget AppState.TREE none 0 cp5)
        ⟨0, sway 0 cp5, 0⟩) cp5.initialPos))).y = 8 / 100 * (1 + 5 / 100) ∧
    (8 / 100 : ℝ) ≠ 8 / 100 * (1 + 5 / 100) := by
  have hsway : sway 0 cp5 = 5 / 100 := by
    simp [sway, cp5, Real.sin_pi_div_two]
  refine ⟨?_, ?_, by norm_num⟩
  · simp only [updateParticle, frameTarget_cp5, Vec3.lerp]
    norm_num [cp5]
  · rw [frameTarget_cp5, hsway]
    simp only [Vec3.add, Vec3.smul, Vec3.sub]
    norm_num [cp5]

/-- Claim C5 amended: each frame the stored position is updated by exponential
smoothing with blend 0.08 toward the selected target alone,
newPos = oldPos + 0.08 * (target - oldPos); the per-particle vertical
breathing sway is added only to the position emitted to the renderer,
emitted = newPos + (0, sway, 0), and never enters the stored state. -/
theorem integrator_smoothing_form (appState : AppState)
    (handPosition : Option Vec3) (time : ℝ) (p : ParticleData) :
    (updateParticle appState handPosition time p).initialPos =
      Vec3.add p.initialPos (Vec3.smul (8 / 100)
        (Vec3.sub (frameTarget appState handPosition time p) p.initialPos)) ∧
    emittedPosition appState handPosition time p =
      Vec3.add (updateParticle appState handPosition time p).initialPos
        ⟨0, sway time p, 0⟩ := by
  constructor
  · simp only [updateParticle, Vec3.lerp, Vec3.add, Vec3.smul, Vec3.sub]
    ext <;> dsimp only <;> ring
  · simp only [emittedPosition, updateParticle, Vec3.add]
    ext <;> dsimp only <;> ring

/-- Particle count constant of `MagicParticles`. -/
def COUNT : ℕ := 6000

/-- Ribbon particle count constant of `MagicParticles`. -/
def RIBBON_COUNT : ℕ := 800

/-- The random draws consumed by one particle's construction; each real
field stands for one `Math.random()` call (nominally in [0,1), though no
invariant proved below depends on that range), and `paletteIdx` for the
palette pick `Math.floor(Math.random() * palette.length)`. -/
structure RandomDraws where
  rTheta : ℝ
  rHeight : ℝ
  rRadius : ℝ
  rTrunkX : ℝ
  rTrunkY : ℝ
  rTrunkZ : ℝ
  rHeartT : ℝ
  rHeartJ : ℝ
  rHeartZ : ℝ
  rScatterX : ℝ
  rScatterY : ℝ
  rScatterZ : ℝ
  paletteIdx : Fin 6
  rSize : ℝ
  rSpeed : ℝ
  rPhase : ℝ

/-- The mixed canopy palette of `MagicParticles` (colors symbolic). -/
def mixedPalette : Fin 6 → ParticleColor :=
  ![ParticleColor.paleVioletRed, ParticleColor.hotPink,
    ParticleColor.lightPink, ParticleColor.white, ParticleColor.gold,
    ParticleColor.deepPink]

/-- Construction of particle i by the generation loop of `MagicParticles`.
`isTrunk` compares `i > COUNT - COUNT * 0.1`; in double precision
`6000 * 0.1` evaluates to exactly 600, so the comparison is exactly
`i > 5400`, written here as `COUNT - COUNT / 10 < i` in `ℕ`. -/
noncomputable def mkParticle (i : ℕ) (rd : RandomDraws) : ParticleData :=
  let isRibbon := decide (i < RIBBON_COUNT)
  let theta := rd.rTheta * Real.pi * 2
  let height := rd.rHeight * 10 - 5
  let normalizedHeight := (height + 5) / 10
  let radiusAtHeight := (1 - normalizedHeight) * (7 / 2)
  let r := rd.rRadius * radiusAtHeight
  let xTree := r * Real.cos theta
  let zTree := r * Real.sin theta
  let yTree := height
  let isTrunk := !isRibbon && decide (COUNT - COUNT / 10 < i)
  let treePosBase : Vec3 :=
    if isTrunk then
      ⟨(rd.rTrunkX - 1 / 2) * (8 / 10), rd.rTrunkY * 4 - 5,
        (rd.rTrunkZ - 1 / 2) * (8 / 10)⟩
    else ⟨xTree, yTree, zTree⟩
  let ribbonSpiral : Vec3 :=
    if isRibbon then
      let h := ((i : ℝ) / (RIBBON_COUNT : ℝ)) * 10 - 5
      let normH := (h + 5) / 10
      let spiralRadius := (1 - normH) * (21 / 5)
      let angle := normH * Real.pi * 2 * 5
      ⟨spiralRadius * Real.cos angle, h, spiralRadius * Real.sin angle⟩
    else ⟨0, 0, 0⟩
  let treePos := if isRibbon then ribbonSpiral else treePosBase
  let t := rd.rHeartT * Real.pi * 2
  let hScale : ℝ := 25 / 100
  let xHeart := hScale * (16 * (Real.sin t) ^ 3) *
    (1 + (rd.rHeartJ - 1 / 2) * (2 / 10))
  let yHeart := hScale * (13 * Real.cos t - 5 * Real.cos (2 * t) -
    2 * Real.cos (3 * t) - Real.cos (4 * t)) + 1
  let zHeart := (rd.rHeartZ - 1 / 2) * 2
  let heartPos : Vec3 := ⟨xHeart, yHeart, zHeart⟩
  let scatterPos : Vec3 := ⟨(rd.rScatterX - 1 / 2) * 15,
    (rd.rScatterY - 1 / 2) * 15, (rd.rScatterZ - 1 / 2) * 15⟩
  let color :=
    if isRibbon then ParticleColor.ghostWhite
    else if isTrunk then ParticleColor.trunkBrown
    else mixedPalette rd.paletteIdx
  { id := i
    initialPos := scatterPos
    treePos := treePos
    heartPos := heartPos
    scatterPos := scatterPos
    ribbonPos := if isRibbon then some ribbonSpiral else none
    isRibbon := isRibbon
    isTrunk := isTrunk
    color := color
    size := if isRibbon then rd.rSize * (12 / 100) + 8 / 100
      else rd.rSize * (1 / 10) + 5 / 100
    speed := rd.rSpeed * (2 / 100) + 1 / 100
    phase := rd.rPhase * Real.pi * 2 }

/-- Claim C9: every particle produced by the batch generation loop has at most
one of the flags isRibbon / isTrunk set (never both); it carries a
non-absent ribbon-target position exactly when isRibbon is true; and a
non-ribbon particle is never evaluated for ribbon-flow animation — in the
TREE state its base target is its tree position, with `ribbonFlow` never
consulted. -/
theorem particle_flag_invariants (i : ℕ) (rd : RandomDraws) (time : ℝ) :
    ((mkParticle i rd).isRibbon && (mkParticle i rd).isTrunk) = false ∧
    (mkParticle i rd).ribbonPos.isSome = (mkParticle i rd).isRibbon ∧
    ((mkParticle i rd).isRibbon = false →
      baseTarget AppState.TREE time (mkParticle i rd) =
        (mkParticle i rd).treePos) := by
  refine ⟨?_, ?_, ?_⟩
  · by_cases h : i < RIBBON_COUNT
    · simp [mkParticle, h]
    · simp [mkParticle, h]
  · by_cases h : i < RIBBON_COUNT
    · simp [mkParticle, h]
    · simp [mkParticle, h]
  · intro hnr
    simp [baseTarget, hnr]

/-- Witness for C9 at the non-ribbon index 1000 with all-zero draws,
discharging the hypothesis of the third conjunct. -/
theorem particle_flag_invariants_witness :
    (mkParticle 1000 ⟨0, 0, 0, 0, 0, 0, 0, 0, 0, 0, 0, 0, 0, 0, 0, 0⟩).isRibbon
      = false ∧
    baseTarget AppState.TREE 0
        (mkParticle 1000 ⟨0, 0, 0, 0, 0, 0, 0, 0, 0, 0, 0, 0, 0, 0, 0, 0⟩) =
      (mkParticle 1000 ⟨0, 0, 0, 0, 0, 0, 0, 0, 0, 0, 0, 0, 0, 0, 0, 0⟩).treePos ∧
    ((mkParticle 1000 ⟨0, 0, 0, 0, 0, 0, 0, 0, 0, 0, 0, 0, 0, 0, 0, 0⟩).isRibbon
      && (mkParticle 1000 ⟨0, 0, 0, 0, 0, 0, 0, 0, 0, 0, 0, 0, 0, 0, 0, 0⟩).isTrunk)
      = false := by
  have h : (mkParticle 1000 ⟨0, 0, 0, 0, 0, 0, 0, 0, 0, 0, 0, 0, 0, 0, 0, 0⟩).isRibbon
      = false := by
    simp [mkParticle, RIBBON_COUNT]
  exact ⟨h,
    (particle_flag_invariants 1000 ⟨0, 0, 0, 0, 0, 0, 0, 0, 0, 0, 0, 0, 0, 0, 0, 0⟩ 0).2.2 h,
    (particle_flag_invariants 1000 ⟨0, 0, 0, 0, 0, 0, 0, 0, 0, 0, 0, 0, 0, 0, 0, 0⟩ 0).1⟩

/-- One rendered photo child of `FloatingPhotos`: its id (from the photo
data) and its current world-space position. -/
structure PhotoSlot where
  id : String
  worldPos : Vec3

/-- One step of the closest-candidate scan of `FloatingPhotos`: the source
keeps `(closestDist, closestId)`, with `closestDist` starting at Infinity,
and replaces both when `dist < 1.5 && dist < closestDist`.  `none` for the
accumulated distance plays Infinity; distances are compared squared
(`1.5 ^ 2 = 9 / 4`), which preserves both strict comparisons. -/
noncomputable def scanSlot (hp : Vec3) (acc : Option ℝ × Option String)
    (slot : PhotoSlot) : Option ℝ × Option String :=
  let dSq := Vec3.distSq hp slot.worldPos
  if dSq < 9 / 4 ∧ (∀ c, acc.1 = some c → dSq < c) then
    (some dSq, some slot.id)
  else acc

/-- The grab-candidate search: it runs only when a hand anchor exists, the
pinch flag is set and the state is SCATTER; otherwise there is no
candidate this frame. -/
noncomputable def grabCandidate (handPosition : Option Vec3)
    (isPinching : Bool) (appState : AppState) (slots : List PhotoSlot) :
    Option String :=
  match handPosition with
  | none => none
  | some hp =>
    if isPinching = true ∧ appState = AppState.SCATTER then
      (slots.foldl (scanSlot hp) (none, none)).2
    else none

/-- The per-frame update of the sticky grab pointer `activePhotoId`:
`if (closestId) active = closestId; else if (!isPinching) active = null;`
— with a candidate the pointer moves to it, with none it is kept while
pinching and cleared otherwise. -/
noncomputable def stepActive (handPosition : Option Vec3)
    (isPinching : Bool) (appState : AppState) (slots : List PhotoSlot)
    (active : Option String) : Option String :=
  match grabCandidate handPosition isPinching appState slots with
  | some cid => some cid
  | none => if isPinching = true then active else none

lemma foldl_scanSlot_of_far (hp : Vec3) (l : List PhotoSlot)
    (acc : Option ℝ × Option String)
    (hfar : ∀ s ∈ l, ¬ Vec3.distSq hp s.worldPos < 9 / 4) :
    l.foldl (scanSlot hp) acc = acc := by
  induction l generalizing acc with
  | nil => rfl
  | cons s l ih =>
    rw [List.foldl_cons]
    have hs : scanSlot hp acc s = acc := by
      simp only [scanSlot]
      rw [if_neg]
      intro hc
      exact hfar s (List.mem_cons_self s l) hc.1
    rw [hs]
    exact ih _ (fun s' hs' => hfar s' (List.mem_cons_of_mem _ hs'))

lemma foldl_scanSlot_keep (hp : Vec3) (dj : ℝ) (sid : String)
    (l : List PhotoSlot)
    (hge : ∀ s ∈ l, ¬ Vec3.distSq hp s.worldPos < dj) :
    l.foldl (scanSlot hp) (some dj, some sid) = (some dj, some sid) := by
  induction l with
  | nil => rfl
  | cons s l ih =>
    rw [List.foldl_cons]
    have hs : scanSlot hp (some dj, some sid) s = (some dj, some sid) := by
      simp only [scanSlot]
      rw [if_neg]
      intro hc
      exact hge s (List.mem_cons_self s l) (hc.2 dj rfl)
    rw [hs]
    exact ih (fun s' hs' => hge s' (List.mem_cons_of_mem _ hs'))

lemma foldl_scanSlot_reach (hp : Vec3) (sj : PhotoSlot)
    (hnear : Vec3.distSq hp sj.worldPos < 9 / 4) :
    ∀ (l : List PhotoSlot) (acc : Option ℝ × Option String),
      sj ∈ l →
      (∀ s ∈ l, s = sj ∨
        Vec3.distSq hp sj.worldPos < Vec3.distSq hp s.worldPos) →
      (acc.1 = none ∨
        ∃ c, acc.1 = some c ∧ Vec3.distSq hp sj.worldPos < c) →
      l.foldl (scanSlot hp) acc =
        (some (Vec3.distSq hp sj.worldPos), some sj.id) := by
  intro l
  induction l with
  | nil => intro acc hmem _ _; cases hmem
  | cons s l ih =>
    intro acc hmem hclosest hinv
    rw [List.foldl_cons]
    have hcond_of_eq : s = sj →
        scanSlot hp acc s = (some (Vec3.distSq hp sj.worldPos), some sj.id) := by
      intro he
      subst he
      simp only [scanSlot]
      rw [if_pos]
      constructor
      · exact hnear
      · intro c hc
        rcases hinv with h | ⟨c', hc', hlt⟩
        · rw [h] at hc; cases hc
        · rw [hc'] at hc
          cases hc
          exact hlt
    rcases hclosest s (List.mem_cons_self s l) with he | hfarther
    · rw [hcond_of_eq he]
      apply foldl_scanSlot_keep
      intro s' hs'
      rcases hclosest s' (List.mem_cons_of_mem _ hs') with he' | hlt'
      · subst he'
        exact lt_irrefl _
      · exact not_lt_of_gt hlt'
    · have hsj_tail : sj ∈ l := by
        rcases List.mem_cons.mp hmem with he | h
        · exfalso
          rw [← he] at hfarther
          exact lt_irrefl _ hfarther
        · exact h
      have htail : ∀ s' ∈ l, s' = sj ∨
          Vec3.distSq hp sj.worldPos < Vec3.distSq hp s'.worldPos :=
        fun s' hs' => hclosest s' (List.mem_cons_of_mem _ hs')
      by_cases hc : Vec3.distSq hp s.worldPos < 9 / 4 ∧
          (∀ c, acc.1 = some c → Vec3.distSq hp s.worldPos < c)
      · have hstep : scanSlot hp acc s =
            (some (Vec3.distSq hp s.worldPos), some s.id) := by
          simp only [scanSlot]
          rw [if_pos hc]
        rw [hstep]
        exact ih _ hsj_tail htail
          (Or.inr ⟨Vec3.distSq hp s.worldPos, rfl, hfarther⟩)
      · have hstep : scanSlot hp acc s = acc := by
          simp only [scanSlot]
          rw [if_neg hc]
        rw [hstep]
        exact ih _ hsj_tail htail hinv

/-- Claim C7 counterexample: with photos A (origin) and B (10 units away), a
pinch near A makes A the active grab target; on the next frame the pinch
is still held but the hand is near B, and the active target switches to B
— so the target does *not* remain A in every subsequent frame while the
pinch continues. -/
theorem grab_handoff_counterexample :
    stepActive (some ⟨0, 0, 0⟩) true AppState.SCATTER
      [⟨"A", ⟨0, 0, 0⟩⟩, ⟨"B", ⟨10, 0, 0⟩⟩] none = some "A" ∧
    stepActive (some ⟨10, 0, 0⟩) true AppState.SCATTER
      [⟨"A", ⟨0, 0, 0⟩⟩, ⟨"B", ⟨10, 0, 0⟩⟩] (some "A") = some "B" ∧
    "B" ≠ "A" := by
  refine ⟨?_, ?_, by decide⟩
  · have hfold := foldl_scanSlot_reach ⟨0, 0, 0⟩ ⟨"A", ⟨0, 0, 0⟩⟩
      (by norm_num [Vec3.distSq])
      [⟨"A", ⟨0, 0, 0⟩⟩, ⟨"B", ⟨10, 0, 0⟩⟩] (none, none)
      (by simp)
      (by
        intro s hs
        rcases List.mem_cons.mp hs with h | h
        · exact Or.inl h
        · simp only [List.mem_singleton] at h
          subst h
          exact Or.inr (by norm_num [Vec3.distSq]))
      (Or.inl rfl)
    simp [stepActive, grabCandidate, hfold]
  · have hfold := foldl_scanSlot_reach ⟨10, 0, 0⟩ ⟨"B", ⟨10, 0, 0⟩⟩
      (by norm_num [Vec3.distSq])
      [⟨"A", ⟨0, 0, 0⟩⟩, ⟨"B", ⟨10, 0, 0⟩⟩] (none, none)
      (by simp)
      (by
        intro s hs
        rcases List.mem_cons.mp hs with h | h
        · subst h
          exact Or.inr (by norm_num [Vec3.distSq])
        · simp only [List.mem_singleton] at h
          exact Or.inl h)
      (Or.inl rfl)
    simp [stepActive, grabCandidate, hfold]

/-- Claim C7 amended: once a photo is the active grab target under a pinch in
SCATTER, it remains the active target on every frame on which the pinch
continues and no photo is a grab candidate — in particular whenever the
hand is at least 1.5 units from every photo; and the active target is
cleared on the first frame on which the pinch has ended (once the pinch
ends no candidate can exist, since candidates are only computed while
pinching).  It does not survive the appearance of a new closer candidate
under a sustained pinch: the candidate then replaces it. -/
theorem grab_sticky_no_candidate (hp : Vec3) (slots : List PhotoSlot)
    (appState : AppState) (active : Option String)
    (hfar : ∀ s ∈ slots, ¬ Vec3.distSq hp s.worldPos < 9 / 4) :
    stepActive (some hp) true appState slots active = active ∧
    (∀ (h2 : Option Vec3) (appState2 : AppState) (a2 : Option String),
      stepActive h2 false appState2 slots a2 = none) := by
  constructor
  · have hcand : grabCandidate (some hp) true appState slots = none := by
      simp only [grabCandidate]
      by_cases hA : appState = AppState.SCATTER
      · rw [if_pos ⟨trivial, hA⟩, foldl_scanSlot_of_far hp slots (none, none) hfar]
      · rw [if_neg (fun hc => hA hc.2)]
    simp [stepActive, hcand]
  · intro h2 appState2 a2
    have hcand : grabCandidate h2 false appState2 slots = none := by
      cases h2 with
      | none => rfl
      | some v => simp [grabCandidate]
    simp [stepActive, hcand]

/-- Witness for the amended C7: the grabbed photo A stays grabbed while
the pinch continues with the hand 5 units away, and is cleared as soon as
the pinch ends. -/
theorem grab_sticky_no_candidate_witness :
    stepActive (some ⟨0, 0, 0⟩) true AppState.SCATTER [⟨"A", ⟨5, 0, 0⟩⟩]
      (some "A") = some "A" ∧
    stepActive none false AppState.SCATTER [⟨"A", ⟨5, 0, 0⟩⟩]
      (some "A") = none := by
  have h := grab_sticky_no_candidate ⟨0, 0, 0⟩ [⟨"A", ⟨5, 0, 0⟩⟩]
    AppState.SCATTER (some "A")
    (by
      intro s hs
      simp only [List.mem_singleton] at hs
      subst hs
      norm_num [Vec3.distSq])
  exact ⟨h.1, h.2 none AppState.SCATTER (some "A")⟩

/-- Claim C10: under a sustained pinch in SCATTER, the active grab target is not
locked to the previously grabbed photo: whenever some photo is within 1.5
units of the hand and strictly closer than every other photo, the step
makes it the active target, whatever the previous target was — a
sustained pinch can hand the grab from one photo to another. -/
theorem pinch_grab_switches_to_closest (hp : Vec3) (slots : List PhotoSlot)
    (sj : PhotoSlot) (prev : Option String)
    (hmem : sj ∈ slots)
    (hnear : Vec3.distSq hp sj.worldPos < 9 / 4)
    (hclosest : ∀ s ∈ slots, s = sj ∨
      Vec3.distSq hp sj.worldPos < Vec3.distSq hp s.worldPos) :
    stepActive (some hp) true AppState.SCATTER slots prev = some sj.id := by
  have hfold := foldl_scanSlot_reach hp sj hnear slots (none, none) hmem
    hclosest (Or.inl rfl)
  simp [stepActive, grabCandidate, hfold]

/-- Witness for C10: the hand pinches at photo B's position while photo A
is the previous grab target; the step hands the grab to B. -/
theorem pinch_grab_switches_to_closest_witness :
    stepActive (some ⟨2, 0, 0⟩) true AppState.SCATTER
      [⟨"A", ⟨0, 0, 0⟩⟩, ⟨"B", ⟨2, 0, 0⟩⟩] (some "A") = some "B" :=
  pinch_grab_switches_to_closest ⟨2, 0, 0⟩
    [⟨"A", ⟨0, 0, 0⟩⟩, ⟨"B", ⟨2, 0, 0⟩⟩] ⟨"B", ⟨2, 0, 0⟩⟩ (some "A")
    (by simp)
    (by norm_num [Vec3.distSq])
    (by
      intro s hs
      rcases List.mem_cons.mp hs with h | h
      · subst h
        exact Or.inr (by norm_num [Vec3.distSq])
      · simp only [List.mem_singleton] at h
        exact Or.inl h)

/-- Current interpolated state of one photo child: local position and the
uniform scale factor (`child.scale.x`, applied to all three axes). -/
structure PhotoItemState where
  position : Vec3
  scale : ℝ

/-- Target position for one photo in the `FloatingPhotos` frame loop: a
grabbed photo targets the hand position (already transformed into the
group's local space by the caller) offset by (0, 0, 0.5) toward the
viewer; a non-grabbed photo targets its home position plus the idle float
sinusoid `sin(elapsedTime + idx) * 0.002` on y. -/
noncomputable def photoTargetPos (time : ℝ) (idx : ℕ) (homePos : Vec3)
    (grabbed : Bool) (localHand : Vec3) : Vec3 :=
  if grabbed then Vec3.add localHand ⟨0, 0, 1 / 2⟩
  else ⟨homePos.x, homePos.y + Real.sin (time + idx) * (2 / 1000), homePos.z⟩

/-- Target scale: zoomed 4.0 when grabbed, idle 0.35 otherwise. -/
noncomputable def photoTargetScale (grabbed : Bool) : ℝ :=
  if grabbed then 4 else 35 / 100

/-- One frame's interpolation for a photo child:
`child.position.lerp(targetPos, 0.1)` and
`child.scale.setScalar(THREE.MathUtils.lerp(currentScale, targetScale, 0.1))`,
with `MathUtils.lerp(x, y, t) = (1 - t) * x + t * y`. -/
noncomputable def photoUpdate (time : ℝ) (idx : ℕ) (homePos : Vec3)
    (grabbed : Bool) (localHand : Vec3) (st : PhotoItemState) :
    PhotoItemState :=
  { position := Vec3.lerp st.position
      (photoTargetPos time idx homePos grabbed localHand) (1 / 10)
    scale := (1 - 1 / 10) * st.scale + (1 / 10) * photoTargetScale grabbed }

/-- Concrete particle for the C8 counterexample: from the origin toward
the TREE target (1, 0, 0). -/
def cp8 : ParticleData :=
  { id := 0, initialPos := ⟨0, 0, 0⟩, treePos := ⟨1, 0, 0⟩,
    heartPos := ⟨0, 0, 0⟩, scatterPos := ⟨0, 0, 0⟩, ribbonPos := none,
    isRibbon := false, isTrunk := false, color := ParticleColor.white,
    size := 1, speed := 0, phase := 0 }

/-- Claim C8 counterexample: starting at the origin with a target whose x is 1,
one photo frame moves x by 0.1 while one particle frame moves x by 0.08 —
the photo blend (0.1) is not the particle integrator's blend (0.08). -/
theorem photo_blend_differs_counterexample :
    (photoUpdate 0 0 ⟨0, 0, 0⟩ true ⟨1, 0, -(1 / 2)⟩
      ⟨⟨0, 0, 0⟩, 0⟩).position.x = 1 / 10 ∧
    (updateParticle AppState.TREE none 0 cp8).initialPos.x = 8 / 100 ∧
    (1 / 10 : ℝ) ≠ 8 / 100 := by
  refine ⟨?_, ?_, by norm_num⟩
  · simp only [photoUpdate, photoTargetPos, if_pos rfl, Vec3.lerp, Vec3.add]
    norm_num
  · have hft : frameTarget AppState.TREE none 0 cp8 = ⟨1, 0, 0⟩ := by
      simp [frameTarget, baseTarget, cp8]
    simp only [updateParticle, hft, Vec3.lerp]
    norm_num [cp8]

/-- Claim C8 amended: each frame, a photo's position and its uniform scale move
toward their targets by the *same* shared exponential-smoothing blend
0.1 (newValue = old + 0.1 * (target - old) for both, with scale applied
uniformly); this photo blend differs from the particle integrator's
per-frame blend 0.08. -/
theorem photo_blend_shared_form (time : ℝ) (idx : ℕ) (homePos : Vec3)
    (grabbed : Bool) (localHand : Vec3) (st : PhotoItemState) :
    (photoUpdate time idx homePos grabbed localHand st).position =
      Vec3.add st.position (Vec3.smul (1 / 10)
        (Vec3.sub (photoTargetPos time idx homePos grabbed localHand)
          st.position)) ∧
    (photoUpdate time idx homePos grabbed localHand st).scale =
      st.scale + (1 / 10) * (photoTargetScale grabbed - st.scale) ∧
    (1 / 10 : ℝ) ≠ 8 / 100 := by
  refine ⟨?_, ?_, by norm_num⟩
  · simp only [photoUpdate, Vec3.lerp, Vec3.add, Vec3.smul, Vec3.sub]
    ext <;> dsimp only <;> ring
  · simp only [photoUpdate]
    ring
